import Mathlib

/-!
Verification of the `OWthermal_load` widget from
`orangecontrib/elettra/shadow/widgets/extension/ow_FE-2-Shadow.py`.

The widget state (Qt label texts, unit fields, surface data, file name) is a
Lean structure; the two side-effecting external calls (`ST.write_shadow_surface`
and `self.send`) are recorded as a trace of `ExtCall` values, with an `Env`
giving each call's outcome so that failure propagation can be stated. Python
numbers are modelled as exact rationals; a zero `workspace_units_to_m` makes
`1 / self.workspace_units_to_m` raise `ZeroDivisionError`, modelled by the
`Except` result of `after_change_workspace_units`.
-/

namespace ThermalLoad

/-- Surface height data (the arrays `zz`, `xx`, `yy`); the widget code never
inspects this data, it only forwards it to the external write call. -/
abbrev SurfaceData := List Rat

/-- The `ShadowPreProcessorData` packet built by `send_data` (from
`orangecontrib.shadow.util.shadow_objects`); only the three fields this widget
sets are modelled. -/
structure ShadowPreProcessorData where
  error_profile_data_file : String
  error_profile_x_dim : Rat
  error_profile_y_dim : Rat
  deriving Repr, DecidableEq

/-- Types a declared output channel may carry. -/
inductive ChannelType where
  | shadowPreProcessorData
  deriving Repr, DecidableEq

/-- One entry of the widget class's `outputs` declaration. -/
structure OutputChannel where
  name : String
  type : ChannelType
  doc : String
  id : String
  deriving Repr, DecidableEq

/-- The `outputs` class attribute of `OWthermal_load`. -/
def outputs : List OutputChannel :=
  [{ name := "PreProcessor_Data",
     type := ChannelType.shadowPreProcessorData,
     doc := "PreProcessor Data",
     id := "PreProcessor_Data" }]

/-- State of an `OWthermal_load` instance: the unit fields, the text of each
Qt label the widget rewrites (for each `le_X` line-edit, the companion label
`le_X.parent().layout().itemAt(0).widget()` is modelled by the field
`X_label`; the plot axis labels by `axis_xlabel` / `axis_ylabel`), the height
profile file name, the surface arrays and the usage image path. -/
structure Widget where
  workspace_units_to_m : Rat
  workspace_units_label : String
  si_to_user_units : Rat
  axis_xlabel : String
  axis_ylabel : String
  dimension_y_label : String
  step_y_label : String
  correlation_length_y_label : String
  dimension_x_label : String
  step_x_label : String
  correlation_length_x_label : String
  conversion_factor_y_x_label : String
  conversion_factor_y_y_label : String
  conversion_factor_x_x_label : String
  conversion_factor_x_y_label : String
  new_length_y_1_label : String
  new_length_y_2_label : String
  new_length_x_1_label : String
  new_length_x_2_label : String
  heigth_profile_file_name : String
  zz : SurfaceData
  xx : SurfaceData
  yy : SurfaceData
  usage_path : String
  deriving Repr, DecidableEq

/-- The external side-effecting calls the widget makes: the
`ST.write_shadow_surface` file write and the host framework's `self.send`. -/
inductive ExtCall where
  | write_shadow_surface (zz xx yy : SurfaceData) (file_name : String)
  | send (channel : String) (data : ShadowPreProcessorData)
  deriving Repr, DecidableEq

/-- Python-level failures: the `ZeroDivisionError` of `1 / 0` and any
exception raised by an external call. -/
inductive PyErr where
  | zeroDivisionError
  | externalError (msg : String)
  deriving Repr, DecidableEq

/-- Outcome of each external call, supplied by the surrounding world. -/
abbrev Env := ExtCall → Except PyErr Unit

/-- The method `after_change_workspace_units`: first recomputes
`si_to_user_units = 1 / workspace_units_to_m` (a `ZeroDivisionError` when
`workspace_units_to_m` is zero, raised before any label is touched), then
rewrites the two axis labels and the fourteen field labels exactly as the
source does: unit suffixes are appended to the prior text of the dimension,
step, correlation-length and new-length labels, while the conversion-factor
labels are overwritten with fixed strings. -/
def after_change_workspace_units (w : Widget) : Except PyErr Widget :=
  if w.workspace_units_to_m = 0 then Except.error PyErr.zeroDivisionError
  else Except.ok { w with
    si_to_user_units := 1 / w.workspace_units_to_m,
    axis_xlabel := "X [" ++ w.workspace_units_label ++ "]",
    axis_ylabel := "Y [" ++ w.workspace_units_label ++ "]",
    dimension_y_label := w.dimension_y_label ++ " [" ++ w.workspace_units_label ++ "]",
    step_y_label := w.step_y_label ++ " [" ++ w.workspace_units_label ++ "]",
    correlation_length_y_label :=
      w.correlation_length_y_label ++ " [" ++ w.workspace_units_label ++ "]",
    dimension_x_label := w.dimension_x_label ++ " [" ++ w.workspace_units_label ++ "]",
    step_x_label := w.step_x_label ++ " [" ++ w.workspace_units_label ++ "]",
    correlation_length_x_label :=
      w.correlation_length_x_label ++ " [" ++ w.workspace_units_label ++ "]",
    conversion_factor_y_x_label :=
      "Conversion from file to " ++ w.workspace_units_label ++ "\n(Abscissa)",
    conversion_factor_y_y_label :=
      "Conversion from file to " ++ w.workspace_units_label ++ "\n(Height Profile Values)",
    conversion_factor_x_x_label :=
      "Conversion from file to " ++ w.workspace_units_label ++ "\n(Abscissa)",
    conversion_factor_x_y_label :=
      "Conversion from file to " ++ w.workspace_units_label ++ "\n(Height Profile Values)",
    new_length_y_1_label := w.new_length_y_1_label ++ " [" ++ w.workspace_units_label ++ "]",
    new_length_y_2_label := w.new_length_y_2_label ++ " [" ++ w.workspace_units_label ++ "]",
    new_length_x_1_label := w.new_length_x_1_label ++ " [" ++ w.workspace_units_label ++ "]",
    new_length_x_2_label := w.new_length_x_2_label ++ " [" ++ w.workspace_units_label ++ "]" }

/-- The method `get_usage_path`: returns `self.usage_path`. -/
def get_usage_path (w : Widget) : String := w.usage_path

/-- The method `get_axis_um`: returns `self.workspace_units_label`. -/
def get_axis_um (w : Widget) : String := w.workspace_units_label

/-- The one external call issued by `write_error_profile_file`:
`ST.write_shadow_surface(self.zz, self.xx, self.yy, self.heigth_profile_file_name)`. -/
def writeCall (w : Widget) : ExtCall :=
  ExtCall.write_shadow_surface w.zz w.xx w.yy w.heigth_profile_file_name

/-- The method `write_error_profile_file`: a single pass-through call to
`ST.write_shadow_surface` with the four instance fields, recorded in the
trace; the widget state is untouched and a failing call propagates. -/
def write_error_profile_file (env : Env) (w : Widget) :
    Except PyErr (Widget × List ExtCall) :=
  (env (writeCall w)).map (fun _ => (w, [writeCall w]))

/-- The packet `send_data` builds from the instance and its two arguments. -/
def sendPacket (w : Widget) (dimension_x dimension_y : Rat) : ShadowPreProcessorData :=
  { error_profile_data_file := w.heigth_profile_file_name,
    error_profile_x_dim := dimension_x,
    error_profile_y_dim := dimension_y }

/-- The method `send_data`: a single `self.send` on channel
"PreProcessor_Data" carrying the packet, recorded in the trace; the widget
state is untouched and a failing send propagates. -/
def send_data (env : Env) (w : Widget) (dimension_x dimension_y : Rat) :
    Except PyErr (Widget × List ExtCall) :=
  (env (ExtCall.send "PreProcessor_Data" (sendPacket w dimension_x dimension_y))).map
    (fun _ => (w, [ExtCall.send "PreProcessor_Data" (sendPacket w dimension_x dimension_y)]))

/-- A sample widget state used to instantiate the theorems below. -/
def w0 : Widget :=
  { workspace_units_to_m := 2,
    workspace_units_label := "cm",
    si_to_user_units := 5,
    axis_xlabel := "X",
    axis_ylabel := "Y",
    dimension_y_label := "Dimension Y",
    step_y_label := "Step Y",
    correlation_length_y_label := "Correlation Length Y",
    dimension_x_label := "Dimension X",
    step_x_label := "Step X",
    correlation_length_x_label := "Correlation Length X",
    conversion_factor_y_x_label := "Conversion Y abscissa",
    conversion_factor_y_y_label := "Conversion Y height",
    conversion_factor_x_x_label := "Conversion X abscissa",
    conversion_factor_x_y_label := "Conversion X height",
    new_length_y_1_label := "New Length Y 1",
    new_length_y_2_label := "New Length Y 2",
    new_length_x_1_label := "New Length X 1",
    new_length_x_2_label := "New Length X 2",
    heigth_profile_file_name := "thermal_profile.dat",
    zz := [1, 2],
    xx := [0],
    yy := [3],
    usage_path := "misc/height_error_profile_usage.png" }

/-- The sample widget with a zero `workspace_units_to_m`. -/
def wZero : Widget := { w0 with workspace_units_to_m := 0 }

/-- An environment in which every external call succeeds. -/
def envOk : Env := fun _ => Except.ok ()

/-- An environment in which every external call raises. -/
def envFail : Env := fun _ => Except.error (PyErr.externalError "disk full")

/-- Helper: a successful `Except.map` comes from a successful computation. -/
theorem map_ok_elim {α β : Type} (x : Except PyErr α) (f : α → β) (b : β)
    (h : x.map f = Except.ok b) : ∃ a, x = Except.ok a ∧ f a = b := by
  cases x with
  | error e => simp [Except.map] at h
  | ok a => exact ⟨a, rfl, by simpa [Except.map] using h⟩

/-- C1: for every instance and every pair of dimension arguments, a completed
call to `send_data` emits exactly one `ShadowPreProcessorData` packet on the
output channel "PreProcessor_Data", whose `error_profile_data_file` field is
the instance's `heigth_profile_file_name` and whose `error_profile_x_dim` and
`error_profile_y_dim` fields are the two arguments. -/
theorem send_data_emits_one_packet (env : Env) (w : Widget)
    (dimension_x dimension_y : Rat) (res : Widget × List ExtCall)
    (h : send_data env w dimension_x dimension_y = Except.ok res) :
    res.2 = [ExtCall.send "PreProcessor_Data"
      { error_profile_data_file := w.heigth_profile_file_name,
        error_profile_x_dim := dimension_x,
        error_profile_y_dim := dimension_y }] := by
  obtain ⟨a, _, hf⟩ := map_ok_elim _ _ _ h
  rw [← hf]
  rfl

/-- C1 witness: the theorem instantiated at the sample widget, dimensions 3
and 4, in the all-succeeding environment. -/
theorem send_data_emits_one_packet_witness :
    send_data envOk w0 3 4 = Except.ok (w0, [ExtCall.send "PreProcessor_Data"
      { error_profile_data_file := w0.heigth_profile_file_name,
        error_profile_x_dim := 3, error_profile_y_dim := 4 }]) ∧
    (w0, [ExtCall.send "PreProcessor_Data"
      { error_profile_data_file := w0.heigth_profile_file_name,
        error_profile_x_dim := 3, error_profile_y_dim := 4 }]).2 =
      [ExtCall.send "PreProcessor_Data"
        { error_profile_data_file := w0.heigth_profile_file_name,
          error_profile_x_dim := 3, error_profile_y_dim := 4 }] :=
  ⟨rfl, send_data_emits_one_packet envOk w0 3 4 _ rfl⟩

/-- C2: a completed `write_error_profile_file` leaves the widget state
unchanged and its whole effect is exactly one call to the external
`ST.write_shadow_surface` with the instance fields `zz`, `xx`, `yy`,
`heigth_profile_file_name`, in that argument order and untransformed. -/
theorem write_error_profile_file_pass_through (env : Env) (w : Widget)
    (res : Widget × List ExtCall)
    (h : write_error_profile_file env w = Except.ok res) :
    res.1 = w ∧
    res.2 = [ExtCall.write_shadow_surface w.zz w.xx w.yy w.heigth_profile_file_name] := by
  obtain ⟨a, _, hf⟩ := map_ok_elim _ _ _ h
  rw [← hf]
  exact ⟨rfl, rfl⟩

/-- C2 witness: the theorem instantiated at the sample widget in the
all-succeeding environment. -/
theorem write_error_profile_file_pass_through_witness :
    write_error_profile_file envOk w0 = Except.ok (w0, [writeCall w0]) ∧
    ((w0, [writeCall w0]).1 = w0 ∧
     (w0, [writeCall w0]).2 =
       [ExtCall.write_shadow_surface w0.zz w0.xx w0.yy w0.heigth_profile_file_name]) :=
  ⟨rfl, write_error_profile_file_pass_through envOk w0 _ rfl⟩

/-- C3: after any completed call to `after_change_workspace_units`, the plot's
x-axis label is "X [" ++ workspace_units_label ++ "]" and the y-axis label is
"Y [" ++ workspace_units_label ++ "]". -/
theorem after_change_sets_axis_labels (w w2 : Widget)
    (h : after_change_workspace_units w = Except.ok w2) :
    w2.axis_xlabel = "X [" ++ w.workspace_units_label ++ "]" ∧
    w2.axis_ylabel = "Y [" ++ w.workspace_units_label ++ "]" := by
  unfold after_change_workspace_units at h
  split at h
  · exact absurd h (by simp)
  · cases h
    exact ⟨rfl, rfl⟩

/-- The result of one `after_change_workspace_units` call on the sample
widget, written out explicitly. -/
def w0after : Widget :=
  { w0 with
    si_to_user_units := 1 / 2,
    axis_xlabel := "X [cm]",
    axis_ylabel := "Y [cm]",
    dimension_y_label := "Dimension Y [cm]",
    step_y_label := "Step Y [cm]",
    correlation_length_y_label := "Correlation Length Y [cm]",
    dimension_x_label := "Dimension X [cm]",
    step_x_label := "Step X [cm]",
    correlation_length_x_label := "Correlation Length X [cm]",
    conversion_factor_y_x_label := "Conversion from file to cm\n(Abscissa)",
    conversion_factor_y_y_label := "Conversion from file to cm\n(Height Profile Values)",
    conversion_factor_x_x_label := "Conversion from file to cm\n(Abscissa)",
    conversion_factor_x_y_label := "Conversion from file to cm\n(Height Profile Values)",
    new_length_y_1_label := "New Length Y 1 [cm]",
    new_length_y_2_label := "New Length Y 2 [cm]",
    new_length_x_1_label := "New Length X 1 [cm]",
    new_length_x_2_label := "New Length X 2 [cm]" }

/-- C3 witness: the theorem instantiated at the sample widget, whose unit
label is "cm". -/
theorem after_change_sets_axis_labels_witness :
    after_change_workspace_units w0 = Except.ok w0after ∧
    w0after.axis_xlabel = "X [cm]" ∧ w0after.axis_ylabel = "Y [cm]" := by
  refine ⟨by rfl, ?_⟩
  have h := after_change_sets_axis_labels w0 w0after (by rfl)
  exact ⟨h.1.trans rfl, h.2.trans rfl⟩

/-- C5: no operation catches, transforms or suppresses an exception: a
failure of the external write or send call surfaces unchanged as the
operation's whole result (so no widget field was modified), a zero
`workspace_units_to_m` makes `after_change_workspace_units` fail with the
division error, and `get_usage_path` and `get_axis_um` are total pure
functions that cannot fail. -/
theorem no_error_handling (env : Env) (w : Widget)
    (dimension_x dimension_y : Rat) (e : PyErr) :
    (env (writeCall w) = Except.error e →
      write_error_profile_file env w = Except.error e) ∧
    (env (ExtCall.send "PreProcessor_Data" (sendPacket w dimension_x dimension_y)) =
        Except.error e →
      send_data env w dimension_x dimension_y = Except.error e) ∧
    (w.workspace_units_to_m = 0 →
      after_change_workspace_units w = Except.error PyErr.zeroDivisionError) := by
  refine ⟨fun h => ?_, fun h => ?_, fun h => ?_⟩
  · unfold write_error_profile_file
    rw [h]
    rfl
  · unfold send_data
    rw [h]
    rfl
  · unfold after_change_workspace_units
    rw [if_pos h]

/-- C5 witness: the theorem instantiated at the sample widgets in the
all-failing environment, and at the zero-units widget. -/
theorem no_error_handling_witness :
    (envFail (writeCall w0) = Except.error (PyErr.externalError "disk full") ∧
      write_error_profile_file envFail w0 = Except.error (PyErr.externalError "disk full")) ∧
    (envFail (ExtCall.send "PreProcessor_Data" (sendPacket w0 3 4)) =
        Except.error (PyErr.externalError "disk full") ∧
      send_data envFail w0 3 4 = Except.error (PyErr.externalError "disk full")) ∧
    (wZero.workspace_units_to_m = 0 ∧
      after_change_workspace_units wZero = Except.error PyErr.zeroDivisionError) :=
  ⟨⟨rfl, (no_error_handling envFail w0 3 4 (PyErr.externalError "disk full")).1 rfl⟩,
   ⟨rfl, (no_error_handling envFail w0 3 4 (PyErr.externalError "disk full")).2.1 rfl⟩,
   ⟨rfl, (no_error_handling envFail wZero 3 4 (PyErr.externalError "disk full")).2.2 rfl⟩⟩

/-- C6: the widget declares exactly one output channel, named
"PreProcessor_Data" with type `ShadowPreProcessorData`, and every external
call a completed `send_data` makes is a send on exactly that declared name. -/
theorem single_declared_output_channel :
    outputs = [{ name := "PreProcessor_Data",
                 type := ChannelType.shadowPreProcessorData,
                 doc := "PreProcessor Data",
                 id := "PreProcessor_Data" }] ∧
    ∀ (env : Env) (w : Widget) (dimension_x dimension_y : Rat)
      (res : Widget × List ExtCall),
      send_data env w dimension_x dimension_y = Except.ok res →
      res.2 = [ExtCall.send "PreProcessor_Data" (sendPacket w dimension_x dimension_y)] ∧
      List.map OutputChannel.name outputs = ["PreProcessor_Data"] := by
  refine ⟨rfl, fun env w dx dy res h => ?_⟩
  obtain ⟨a, _, hf⟩ := map_ok_elim _ _ _ h
  rw [← hf]
  exact ⟨rfl, rfl⟩

/-- C6 witness: the theorem's quantified part instantiated at the sample
widget in the all-succeeding environment. -/
theorem single_declared_output_channel_witness :
    send_data envOk w0 3 4 =
      Except.ok (w0, [ExtCall.send "PreProcessor_Data" (sendPacket w0 3 4)]) ∧
    ((w0, [ExtCall.send "PreProcessor_Data" (sendPacket w0 3 4)]).2 =
        [ExtCall.send "PreProcessor_Data" (sendPacket w0 3 4)] ∧
      List.map OutputChannel.name outputs = ["PreProcessor_Data"]) :=
  ⟨rfl, single_declared_output_channel.2 envOk w0 3 4 _ rfl⟩

/-- C7: when `workspace_units_to_m` is nonzero, `after_change_workspace_units`
succeeds and stores exactly the reciprocal of `workspace_units_to_m` in
`si_to_user_units`, so their product is exactly 1; when `workspace_units_to_m`
is zero, the operation fails with the division error before any label is
modified (no updated widget is produced at all). -/
theorem si_to_user_units_is_reciprocal (w : Widget) :
    (w.workspace_units_to_m ≠ 0 →
      (after_change_workspace_units w).map Widget.si_to_user_units =
        Except.ok (1 / w.workspace_units_to_m) ∧
      (1 / w.workspace_units_to_m) * w.workspace_units_to_m = 1) ∧
    (w.workspace_units_to_m = 0 →
      after_change_workspace_units w = Except.error PyErr.zeroDivisionError) := by
  constructor
  · intro hne
    constructor
    · unfold after_change_workspace_units
      rw [if_neg hne]
      rfl
    · exact one_div_mul_cancel hne
  · intro h
    unfold after_change_workspace_units
    rw [if_pos h]

/-- C7 witness: the theorem instantiated at the sample widget (units factor 2)
and at the zero-units widget. -/
theorem si_to_user_units_is_reciprocal_witness :
    ((after_change_workspace_units w0).map Widget.si_to_user_units =
        Except.ok (1 / w0.workspace_units_to_m) ∧
      (1 / w0.workspace_units_to_m) * w0.workspace_units_to_m = 1) ∧
    after_change_workspace_units wZero = Except.error PyErr.zeroDivisionError :=
  ⟨(si_to_user_units_is_reciprocal w0).1 (by decide),
   (si_to_user_units_is_reciprocal wZero).2 (by decide)⟩

/-- C9: `write_error_profile_file`, `send_data`, `get_usage_path` and
`get_axis_um` assign to no widget attribute: a completed write or send
returns the state exactly as it was (their only effects are the recorded
external calls), and the two getters return the `usage_path` and
`workspace_units_label` fields unchanged. -/
theorem read_only_operations_preserve_state (env : Env) (w : Widget)
    (dimension_x dimension_y : Rat) :
    (∀ res, write_error_profile_file env w = Except.ok res → res.1 = w) ∧
    (∀ res, send_data env w dimension_x dimension_y = Except.ok res → res.1 = w) ∧
    get_usage_path w = w.usage_path ∧
    get_axis_um w = w.workspace_units_label := by
  refine ⟨fun res h => ?_, fun res h => ?_, rfl, rfl⟩
  · obtain ⟨a, _, hf⟩ := map_ok_elim _ _ _ h
    rw [← hf]
  · obtain ⟨a, _, hf⟩ := map_ok_elim _ _ _ h
    rw [← hf]

/-- C9 witness: the theorem instantiated at the sample widget in the
all-succeeding environment. -/
theorem read_only_operations_preserve_state_witness :
    (write_error_profile_file envOk w0 = Except.ok (w0, [writeCall w0]) ∧
      (w0, [writeCall w0]).1 = w0) ∧
    (send_data envOk w0 3 4 =
        Except.ok (w0, [ExtCall.send "PreProcessor_Data" (sendPacket w0 3 4)]) ∧
      (w0, [ExtCall.send "PreProcessor_Data" (sendPacket w0 3 4)]).1 = w0) ∧
    get_usage_path w0 = w0.usage_path ∧
    get_axis_um w0 = w0.workspace_units_label :=
  ⟨⟨rfl, (read_only_operations_preserve_state envOk w0 3 4).1 _ rfl⟩,
   ⟨rfl, (read_only_operations_preserve_state envOk w0 3 4).2.1 _ rfl⟩,
   (read_only_operations_preserve_state envOk w0 3 4).2.2⟩

/-- The result of a second `after_change_workspace_units` call on the sample
widget: the fixed-string labels and the axis labels are unchanged, while each
append-mode label has received the unit suffix a second time. -/
def w0after2 : Widget :=
  { w0after with
    dimension_y_label := "Dimension Y [cm] [cm]",
    step_y_label := "Step Y [cm] [cm]",
    correlation_length_y_label := "Correlation Length Y [cm] [cm]",
    dimension_x_label := "Dimension X [cm] [cm]",
    step_x_label := "Step X [cm] [cm]",
    correlation_length_x_label := "Correlation Length X [cm] [cm]",
    new_length_y_1_label := "New Length Y 1 [cm] [cm]",
    new_length_y_2_label := "New Length Y 2 [cm] [cm]",
    new_length_x_1_label := "New Length X 1 [cm] [cm]",
    new_length_x_2_label := "New Length X 2 [cm] [cm]" }

/-- C8 counterexample: the relabeling is not non-idempotent on all twelve
non-conversion-factor relabeled widgets: on the sample widget a second call
leaves both axis labels exactly as the first call set them (they are
rewritten to fixed strings), while an append-mode label such as the
dimension-Y label does change again. -/
theorem relabel_not_all_append_counterexample :
    after_change_workspace_units w0 = Except.ok w0after ∧
    after_change_workspace_units w0after = Except.ok w0after2 ∧
    w0after2.axis_xlabel = w0after.axis_xlabel ∧
    w0after2.axis_ylabel = w0after.axis_ylabel ∧
    w0after2.dimension_y_label ≠ w0after.dimension_y_label := by
  exact ⟨rfl, rfl, rfl, rfl, by decide⟩

/-- C8 (amended): `after_change_workspace_units` writes a fixed string,
determined only by `workspace_units_label` and independent of the prior text,
to the four conversion-factor labels and to the two axis labels (so it is
idempotent on those six, `workspace_units_label` itself being preserved),
whereas each of the ten dimension, step, correlation-length and new-length
labels receives its prior text with " [" ++ workspace_units_label ++ "]"
appended, so a second call appends the unit suffix a second time on those
ten. -/
theorem relabel_fixed_versus_appended (w w2 : Widget)
    (h : after_change_workspace_units w = Except.ok w2) :
    (w2.conversion_factor_y_x_label =
        "Conversion from file to " ++ w.workspace_units_label ++ "\n(Abscissa)" ∧
      w2.conversion_factor_y_y_label =
        "Conversion from file to " ++ w.workspace_units_label ++ "\n(Height Profile Values)" ∧
      w2.conversion_factor_x_x_label =
        "Conversion from file to " ++ w.workspace_units_label ++ "\n(Abscissa)" ∧
      w2.conversion_factor_x_y_label =
        "Conversion from file to " ++ w.workspace_units_label ++ "\n(Height Profile Values)" ∧
      w2.axis_xlabel = "X [" ++ w.workspace_units_label ++ "]" ∧
      w2.axis_ylabel = "Y [" ++ w.workspace_units_label ++ "]") ∧
    (w2.dimension_y_label = w.dimension_y_label ++ " [" ++ w.workspace_units_label ++ "]" ∧
      w2.step_y_label = w.step_y_label ++ " [" ++ w.workspace_units_label ++ "]" ∧
      w2.correlation_length_y_label =
        w.correlation_length_y_label ++ " [" ++ w.workspace_units_label ++ "]" ∧
      w2.dimension_x_label = w.dimension_x_label ++ " [" ++ w.workspace_units_label ++ "]" ∧
      w2.step_x_label = w.step_x_label ++ " [" ++ w.workspace_units_label ++ "]" ∧
      w2.correlation_length_x_label =
        w.correlation_length_x_label ++ " [" ++ w.workspace_units_label ++ "]" ∧
      w2.new_length_y_1_label = w.new_length_y_1_label ++ " [" ++ w.workspace_units_label ++ "]" ∧
      w2.new_length_y_2_label = w.new_length_y_2_label ++ " [" ++ w.workspace_units_label ++ "]" ∧
      w2.new_length_x_1_label = w.new_length_x_1_label ++ " [" ++ w.workspace_units_label ++ "]" ∧
      w2.new_length_x_2_label =
        w.new_length_x_2_label ++ " [" ++ w.workspace_units_label ++ "]") ∧
    w2.workspace_units_label = w.workspace_units_label := by
  unfold after_change_workspace_units at h
  split at h
  · exact absurd h (by simp)
  · cases h
    exact ⟨⟨rfl, rfl, rfl, rfl, rfl, rfl⟩,
           ⟨rfl, rfl, rfl, rfl, rfl, rfl, rfl, rfl, rfl, rfl⟩, rfl⟩

/-- C8 witness: the amended theorem instantiated at the sample widget and the
explicit result of the first call. -/
theorem relabel_fixed_versus_appended_witness :
    after_change_workspace_units w0 = Except.ok w0after ∧
    ((w0after.conversion_factor_y_x_label =
        "Conversion from file to " ++ w0.workspace_units_label ++ "\n(Abscissa)" ∧
      w0after.conversion_factor_y_y_label =
        "Conversion from file to " ++ w0.workspace_units_label ++ "\n(Height Profile Values)" ∧
      w0after.conversion_factor_x_x_label =
        "Conversion from file to " ++ w0.workspace_units_label ++ "\n(Abscissa)" ∧
      w0after.conversion_factor_x_y_label =
        "Conversion from file to " ++ w0.workspace_units_label ++ "\n(Height Profile Values)" ∧
      w0after.axis_xlabel = "X [" ++ w0.workspace_units_label ++ "]" ∧
      w0after.axis_ylabel = "Y [" ++ w0.workspace_units_label ++ "]") ∧
    (w0after.dimension_y_label =
        w0.dimension_y_label ++ " [" ++ w0.workspace_units_label ++ "]" ∧
      w0after.step_y_label = w0.step_y_label ++ " [" ++ w0.workspace_units_label ++ "]" ∧
      w0after.correlation_length_y_label =
        w0.correlation_length_y_label ++ " [" ++ w0.workspace_units_label ++ "]" ∧
      w0after.dimension_x_label =
        w0.dimension_x_label ++ " [" ++ w0.workspace_units_label ++ "]" ∧
      w0after.step_x_label = w0.step_x_label ++ " [" ++ w0.workspace_units_label ++ "]" ∧
      w0after.correlation_length_x_label =
        w0.correlation_length_x_label ++ " [" ++ w0.workspace_units_label ++ "]" ∧
      w0after.new_length_y_1_label =
        w0.new_length_y_1_label ++ " [" ++ w0.workspace_units_label ++ "]" ∧
      w0after.new_length_y_2_label =
        w0.new_length_y_2_label ++ " [" ++ w0.workspace_units_label ++ "]" ∧
      w0after.new_length_x_1_label =
        w0.new_length_x_1_label ++ " [" ++ w0.workspace_units_label ++ "]" ∧
      w0after.new_length_x_2_label =
        w0.new_length_x_2_label ++ " [" ++ w0.workspace_units_label ++ "]") ∧
    w0after.workspace_units_label = w0.workspace_units_label) :=
  ⟨rfl, relabel_fixed_versus_appended w0 w0after rfl⟩

/-- The widget fields `after_change_workspace_units` reads: the two unit
fields and the prior texts of the ten append-mode labels. -/
structure RelabelInputs where
  workspace_units_to_m : Rat
  workspace_units_label : String
  dimension_y_label : String
  step_y_label : String
  correlation_length_y_label : String
  dimension_x_label : String
  step_x_label : String
  correlation_length_x_label : String
  new_length_y_1_label : String
  new_length_y_2_label : String
  new_length_x_1_label : String
  new_length_x_2_label : String
  deriving Repr, DecidableEq

/-- Projection of a widget onto the fields `after_change_workspace_units`
reads. -/
def relabelInputs (w : Widget) : RelabelInputs :=
  { workspace_units_to_m := w.workspace_units_to_m,
    workspace_units_label := w.workspace_units_label,
    dimension_y_label := w.dimension_y_label,
    step_y_label := w.step_y_label,
    correlation_length_y_label := w.correlation_length_y_label,
    dimension_x_label := w.dimension_x_label,
    step_x_label := w.step_x_label,
    correlation_length_x_label := w.correlation_length_x_label,
    new_length_y_1_label := w.new_length_y_1_label,
    new_length_y_2_label := w.new_length_y_2_label,
    new_length_x_1_label := w.new_length_x_1_label,
    new_length_x_2_label := w.new_length_x_2_label }

/-- The widget fields `after_change_workspace_units` writes: the conversion
factor, the two axis labels and the fourteen field labels. -/
structure RelabelOutputs where
  si_to_user_units : Rat
  axis_xlabel : String
  axis_ylabel : String
  dimension_y_label : String
  step_y_label : String
  correlation_length_y_label : String
  dimension_x_label : String
  step_x_label : String
  correlation_length_x_label : String
  conversion_factor_y_x_label : String
  conversion_factor_y_y_label : String
  conversion_factor_x_x_label : String
  conversion_factor_x_y_label : String
  new_length_y_1_label : String
  new_length_y_2_label : String
  new_length_x_1_label : String
  new_length_x_2_label : String
  deriving Repr, DecidableEq

/-- Projection of a widget onto the fields `after_change_workspace_units`
writes. -/
def relabelOutputs (w : Widget) : RelabelOutputs :=
  { si_to_user_units := w.si_to_user_units,
    axis_xlabel := w.axis_xlabel,
    axis_ylabel := w.axis_ylabel,
    dimension_y_label := w.dimension_y_label,
    step_y_label := w.step_y_label,
    correlation_length_y_label := w.correlation_length_y_label,
    dimension_x_label := w.dimension_x_label,
    step_x_label := w.step_x_label,
    correlation_length_x_label := w.correlation_length_x_label,
    conversion_factor_y_x_label := w.conversion_factor_y_x_label,
    conversion_factor_y_y_label := w.conversion_factor_y_y_label,
    conversion_factor_x_x_label := w.conversion_factor_x_x_label,
    conversion_factor_x_y_label := w.conversion_factor_x_y_label,
    new_length_y_1_label := w.new_length_y_1_label,
    new_length_y_2_label := w.new_length_y_2_label,
    new_length_x_1_label := w.new_length_x_1_label,
    new_length_x_2_label := w.new_length_x_2_label }

/-- C4 counterexample: the operations touch widget data beyond a file path,
two dimension values and UI label strings: at the sample widget,
`after_change_workspace_units` overwrites the numeric conversion field
`si_to_user_units` (from 5 to 1/2), and the external call emitted by
`write_error_profile_file` reads the surface array `zz`: two states that
differ only in `zz` produce different call traces. -/
theorem touched_data_counterexample :
    (after_change_workspace_units w0).map Widget.si_to_user_units ≠
      Except.ok w0.si_to_user_units ∧
    (write_error_profile_file envOk w0).map Prod.snd ≠
      (write_error_profile_file envOk { w0 with zz := [9] }).map Prod.snd := by
  constructor
  · intro h
    have h1 : (after_change_workspace_units w0).map Widget.si_to_user_units =
        Except.ok (1 / 2 : Rat) := rfl
    rw [h1] at h
    injection h with h2
    have h5 : w0.si_to_user_units = (5 : Rat) := rfl
    rw [h5] at h2
    norm_num at h2
  · intro h
    have h1 : (write_error_profile_file envOk w0).map Prod.snd =
        Except.ok [writeCall w0] := rfl
    have h2 : (write_error_profile_file envOk { w0 with zz := [9] }).map Prod.snd =
        Except.ok [writeCall { w0 with zz := [9] }] := rfl
    rw [h1, h2] at h
    injection h with h3
    exact absurd h3 (by decide)

/-- C4 (amended): the data each operation touches, exactly:
`after_change_workspace_units` writes only `si_to_user_units` and the label
strings (every other field — file name, surface arrays, usage path, unit
fields — is preserved) and reads only the unit fields and the prior label
texts; `write_error_profile_file` and `send_data` write nothing, and their
emitted calls are determined by `zz`, `xx`, `yy` and the file name,
respectively by the file name and the two dimension arguments; the getters
return `usage_path` resp. `workspace_units_label`. -/
theorem operations_touch_only_declared_data (w w' : Widget) (env : Env)
    (dimension_x dimension_y : Rat) :
    (∀ w2, after_change_workspace_units w = Except.ok w2 →
      w2.heigth_profile_file_name = w.heigth_profile_file_name ∧
      w2.zz = w.zz ∧ w2.xx = w.xx ∧ w2.yy = w.yy ∧
      w2.usage_path = w.usage_path ∧
      w2.workspace_units_to_m = w.workspace_units_to_m ∧
      w2.workspace_units_label = w.workspace_units_label) ∧
    (relabelInputs w = relabelInputs w' →
      (after_change_workspace_units w).map relabelOutputs =
        (after_change_workspace_units w').map relabelOutputs) ∧
    (∀ res, write_error_profile_file env w = Except.ok res → res.1 = w) ∧
    (w.zz = w'.zz → w.xx = w'.xx → w.yy = w'.yy →
      w.heigth_profile_file_name = w'.heigth_profile_file_name →
      writeCall w = writeCall w') ∧
    (∀ res, send_data env w dimension_x dimension_y = Except.ok res → res.1 = w) ∧
    (w.heigth_profile_file_name = w'.heigth_profile_file_name →
      sendPacket w dimension_x dimension_y = sendPacket w' dimension_x dimension_y) ∧
    get_usage_path w = w.usage_path ∧
    get_axis_um w = w.workspace_units_label := by
  refine ⟨fun w2 h => ?_, fun h => ?_, fun res h => ?_,
          fun h1 h2 h3 h4 => ?_, fun res h => ?_, fun h1 => ?_, rfl, rfl⟩
  · unfold after_change_workspace_units at h
    split at h
    · exact absurd h (by simp)
    · cases h
      exact ⟨rfl, rfl, rfl, rfl, rfl, rfl, rfl⟩
  · have e1 := congrArg RelabelInputs.workspace_units_to_m h
    have e2 := congrArg RelabelInputs.workspace_units_label h
    have e3 := congrArg RelabelInputs.dimension_y_label h
    have e4 := congrArg RelabelInputs.step_y_label h
    have e5 := congrArg RelabelInputs.correlation_length_y_label h
    have e6 := congrArg RelabelInputs.dimension_x_label h
    have e7 := congrArg RelabelInputs.step_x_label h
    have e8 := congrArg RelabelInputs.correlation_length_x_label h
    have e9 := congrArg RelabelInputs.new_length_y_1_label h
    have e10 := congrArg RelabelInputs.new_length_y_2_label h
    have e11 := congrArg RelabelInputs.new_length_x_1_label h
    have e12 := congrArg RelabelInputs.new_length_x_2_label h
    simp only [relabelInputs] at e1 e2 e3 e4 e5 e6 e7 e8 e9 e10 e11 e12
    unfold after_change_workspace_units
    rw [e1, e2, e3, e4, e5, e6, e7, e8, e9, e10, e11, e12]
    split
    · rfl
    · rfl
  · obtain ⟨a, _, hf⟩ := map_ok_elim _ _ _ h
    rw [← hf]
  · unfold writeCall
    rw [h1, h2, h3, h4]
  · obtain ⟨a, _, hf⟩ := map_ok_elim _ _ _ h
    rw [← hf]
  · unfold sendPacket
    rw [h1]

/-- C4 witness: the amended theorem instantiated at the sample widget (with
itself as the second state) in the all-succeeding environment, dimensions 3
and 4. -/
theorem operations_touch_only_declared_data_witness :
    (after_change_workspace_units w0 = Except.ok w0after ∧
      (w0after.heigth_profile_file_name = w0.heigth_profile_file_name ∧
        w0after.zz = w0.zz ∧ w0after.xx = w0.xx ∧ w0after.yy = w0.yy ∧
        w0after.usage_path = w0.usage_path ∧
        w0after.workspace_units_to_m = w0.workspace_units_to_m ∧
        w0after.workspace_units_label = w0.workspace_units_label)) ∧
    (relabelInputs w0 = relabelInputs w0 ∧
      (after_change_workspace_units w0).map relabelOutputs =
        (after_change_workspace_units w0).map relabelOutputs) ∧
    (write_error_profile_file envOk w0 = Except.ok (w0, [writeCall w0]) ∧
      (w0, [writeCall w0]).1 = w0) ∧
    (w0.zz = w0.zz ∧ writeCall w0 = writeCall w0) ∧
    (send_data envOk w0 3 4 =
        Except.ok (w0, [ExtCall.send "PreProcessor_Data" (sendPacket w0 3 4)]) ∧
      (w0, [ExtCall.send "PreProcessor_Data" (sendPacket w0 3 4)]).1 = w0) ∧
    (w0.heigth_profile_file_name = w0.heigth_profile_file_name ∧
      sendPacket w0 3 4 = sendPacket w0 3 4) ∧
    get_usage_path w0 = w0.usage_path ∧
    get_axis_um w0 = w0.workspace_units_label :=
  ⟨⟨rfl, (operations_touch_only_declared_data w0 w0 envOk 3 4).1 w0after rfl⟩,
   ⟨rfl, (operations_touch_only_declared_data w0 w0 envOk 3 4).2.1 rfl⟩,
   ⟨rfl, (operations_touch_only_declared_data w0 w0 envOk 3 4).2.2.1 _ rfl⟩,
   ⟨rfl, (operations_touch_only_declared_data w0 w0 envOk 3 4).2.2.2.1 rfl rfl rfl rfl⟩,
   ⟨rfl, (operations_touch_only_declared_data w0 w0 envOk 3 4).2.2.2.2.1 _ rfl⟩,
   ⟨rfl, (operations_touch_only_declared_data w0 w0 envOk 3 4).2.2.2.2.2.1 rfl⟩,
   (operations_touch_only_declared_data w0 w0 envOk 3 4).2.2.2.2.2.2⟩

end ThermalLoad
